import Mathlib

/-
  Verification of the paysage unit-layer core (src/paysage/layers.py and the
  backend contract in src/paysage/backends/pytorch_backend/matrix.py).

  Shallow embedding conventions:
  * a tensor of shape (num_units,) is a function ℕ → ℝ;
  * a tensor of shape (num_samples, num_units) is a function ℕ → ℕ → ℝ
    (sample index first);
  * a data batch is a List (ℕ → ℝ), one row per observation;
  * Python dictionaries keyed by parameter name are association lists;
  * a Python method that can raise returns `State × Option PyErr`: the first
    component is the state after the call (Python exceptions leave already
    performed in-place mutations behind), the second the exception if one
    was raised.  Pure readouts that can raise return `Except PyErr _`.
  * machine floats are modelled by ℝ.

  The pytorch backend in src only declares the numeric primitives (every body
  is `raise NotImplementedError`); the primitives used by layers.py are
  therefore modelled from the spec's backend contract (§6) and from the
  docstrings attached to the declarations.  Each such definition carries a
  doc comment starting with "Modelled from the spec:".
-/

namespace Paysage

noncomputable section

/-- Python exception kinds that the embedded code can raise. -/
inductive PyErr where
  | typeError
  | attributeError
  | valueError
  | keyError
  | zeroDivisionError
  | notImplementedError
deriving DecidableEq, Repr

/-- A penalty object: value and gradient functionals over a parameter tensor. -/
structure Penalty where
  value : (ℕ → ℝ) → ℝ
  grad : (ℕ → ℝ) → (ℕ → ℝ)

/-- A constraint object: an in-place projection applied to a parameter tensor. -/
def ConstraintFn : Type := (ℕ → ℝ) → (ℕ → ℝ)

/-- Modelled from the spec: Python `dict.update` on an association list —
existing keys are overwritten in place (last write wins), new keys appended. -/
def dictUpdate {α : Type} (d u : List (String × α)) : List (String × α) :=
  (d.map fun p =>
    match u.find? (fun q => q.1 == p.1) with
    | some q => q
    | none => p)
  ++ u.filter (fun q => d.all (fun p => p.1 ≠ q.1))

/-- Modelled from the spec: `be.mean(data, axis=0)` at unit `i` — the column
mean of a batch given as a list of rows. -/
def colMean (data : List (ℕ → ℝ)) (i : ℕ) : ℝ :=
  (data.map fun r => r i).sum / data.length

/-- Modelled from the spec: `be.mean(be.square(data), axis=0)` at unit `i`. -/
def colSqMean (data : List (ℕ → ℝ)) (i : ℕ) : ℝ :=
  (data.map fun r => (r i) ^ 2).sum / data.length

/-- Modelled from the spec: `be.dot(a, b)` for a (samples × m) matrix against
an (m × units) matrix; `m` is the inner dimension. -/
def dot (m : ℕ) (a b : ℕ → ℕ → ℝ) : ℕ → ℕ → ℝ :=
  fun k i => ∑ j ∈ Finset.range m, a k j * b j i

/-- Modelled from the spec: the backend `batch_dot(vis, W, hid, axis=1)` of
src/paysage/backends/pytorch_backend/matrix.py (its body is a stub; the
docstring specifies `batch_dot(v,W,h) = Σ_i v_i^T W h_i` row by row, computed
with a vectorized expression): per sample `k` the row `v_k W` is contracted
with the row `h_k`.  `N` and `M` are the visible and hidden unit counts. -/
def batch_dot (N M : ℕ) (v W h : ℕ → ℕ → ℝ) : ℕ → ℝ :=
  fun k => ∑ j ∈ Finset.range M, (∑ i ∈ Finset.range N, v k i * W i j) * h k j

/-- Modelled from the spec: `be.mix_inplace(w, x, y)` — weighted average
`w*x + (1-w)*y` stored into x (per the docstring in matrix.py). -/
def mix (w x y : ℝ) : ℝ := w * x + (1 - w) * y

/-- Modelled from the spec: the logistic function `be.expit`. -/
def expit (x : ℝ) : ℝ := 1 / (1 + Real.exp (-x))

/-- Modelled from the spec: `be.logit`, the inverse of the logistic function. -/
def logit (p : ℝ) : ℝ := Real.log (p / (1 - p))

/-- Modelled from the spec: `be.atanh`, the inverse hyperbolic tangent
`artanh m = (1/2) log((1+m)/(1-m))`. -/
def artanh (m : ℝ) : ℝ := Real.log ((1 + m) / (1 - m)) / 2

/-! ### Layer state -/

/-- State of a unit layer whose only intrinsic parameter is `loc`
(Ising, Bernoulli, Exponential).  `ext` is the single extrinsic parameter
(`field` for Ising/Bernoulli, `rate` for Exponential), `none` until the
first `update`.  There is deliberately no field named `constraint`:
`Layer.__init__` (src lines 18–20) only defines `int_params`, `penalties`
and `constraints`. -/
structure ULState where
  len : ℕ
  sample_size : ℕ
  loc : ℕ → ℝ
  ext : Option (ℕ → ℕ → ℝ)
  penalties : List (String × Penalty)
  constraints : List (String × ConstraintFn)

/-- State of a Gaussian layer: intrinsic `loc` and `log_var`, extrinsic
`mean` and `variance`. -/
structure GaussianState where
  len : ℕ
  sample_size : ℕ
  loc : ℕ → ℝ
  log_var : ℕ → ℝ
  ext_mean : Option (ℕ → ℕ → ℝ)
  ext_variance : Option (ℕ → ℕ → ℝ)
  penalties : List (String × Penalty)
  constraints : List (String × ConstraintFn)

/-- State of a Weights layer: a single intrinsic `matrix` of shape
`(rows, cols)`. -/
structure WeightsState where
  rows : ℕ
  cols : ℕ
  matrix : ℕ → ℕ → ℝ
  penalties : List (String × Penalty)
  constraints : List (String × ConstraintFn)

/-! ### Layer base methods (src lines 22–122)

`Layer.add_constraint` (src line 36) executes
`self.constraint.update(constraint)`.  The attribute `constraint` does not
exist — `__init__` defines `constraints` — so Python raises AttributeError
before registering anything, whatever the argument is. -/

/-- `Layer.add_constraint` (src lines 22–36): the body reads the
non-existent attribute `self.constraint`, so the call raises AttributeError
and leaves the state unchanged. -/
def ULState.add_constraint (s : ULState) (_c : List (String × ConstraintFn)) :
    ULState × Option PyErr :=
  (s, some PyErr.attributeError)

/-- `Layer.add_constraint` on a Gaussian layer: same AttributeError. -/
def GaussianState.add_constraint (s : GaussianState)
    (_c : List (String × ConstraintFn)) : GaussianState × Option PyErr :=
  (s, some PyErr.attributeError)

/-- `Layer.enforce_constraints` (src lines 38–53): iterates over
`self.constraints`; each iteration reads the non-existent attribute
`self.constraint`, so the call raises AttributeError as soon as at least one
constraint is registered, and does nothing when none is. -/
def ULState.enforce_constraints (s : ULState) : ULState × Option PyErr :=
  if s.constraints.isEmpty then (s, none) else (s, some PyErr.attributeError)

/-- `Layer.enforce_constraints` on a Gaussian layer. -/
def GaussianState.enforce_constraints (s : GaussianState) :
    GaussianState × Option PyErr :=
  if s.constraints.isEmpty then (s, none) else (s, some PyErr.attributeError)

/-- `Layer.add_penalty` (src lines 55–69): `self.penalties.update(penalty)`. -/
def ULState.add_penalty (s : ULState) (p : List (String × Penalty)) :
    ULState × Option PyErr :=
  ({ s with penalties := dictUpdate s.penalties p }, none)

/-- `Layer.add_penalty` on a Gaussian layer. -/
def GaussianState.add_penalty (s : GaussianState) (p : List (String × Penalty)) :
    GaussianState × Option PyErr :=
  ({ s with penalties := dictUpdate s.penalties p }, none)

/-- Modelled from the spec: `be.subtract_dicts_inplace(self.int_params,
deltas)` (the backend helper is absent from src) — for each entry of
`deltas`, subtract it elementwise from the intrinsic parameter of the same
name; an entry naming no intrinsic parameter raises a KeyError, with the
subtractions already performed left in place.  For a `loc`-only layer the
single valid name is "loc". -/
def ULState.subtractDeltas : ULState → List (String × (ℕ → ℝ)) →
    ULState × Option PyErr
  | s, [] => (s, none)
  | s, (name, d) :: rest =>
      if name = "loc" then
        ULState.subtractDeltas { s with loc := fun i => s.loc i - d i } rest
      else (s, some PyErr.keyError)

/-- Modelled from the spec: `be.subtract_dicts_inplace` for the Gaussian
layer, whose intrinsic parameters are "loc" and "log_var". -/
def GaussianState.subtractDeltas : GaussianState → List (String × (ℕ → ℝ)) →
    GaussianState × Option PyErr
  | s, [] => (s, none)
  | s, (name, d) :: rest =>
      if name = "loc" then
        GaussianState.subtractDeltas { s with loc := fun i => s.loc i - d i } rest
      else if name = "log_var" then
        GaussianState.subtractDeltas
          { s with log_var := fun i => s.log_var i - d i } rest
      else (s, some PyErr.keyError)

/-- `Layer.parameter_step` (src lines 105–122): subtract the deltas in place,
then `enforce_constraints`. -/
def ULState.parameter_step (s : ULState) (deltas : List (String × (ℕ → ℝ))) :
    ULState × Option PyErr :=
  match ULState.subtractDeltas s deltas with
  | (s', none) => ULState.enforce_constraints s'
  | (s', some e) => (s', some e)

/-- `Layer.parameter_step` on a Gaussian layer. -/
def GaussianState.parameter_step (s : GaussianState)
    (deltas : List (String × (ℕ → ℝ))) : GaussianState × Option PyErr :=
  match GaussianState.subtractDeltas s deltas with
  | (s', none) => GaussianState.enforce_constraints s'
  | (s', some e) => (s', some e)

/-! ### Weights (src lines 125–217) -/

/-- `Weights.energy` (src lines 202–217): `-be.batch_dot(vis, matrix, hid)`,
one entry per sample row. -/
def Weights.energy (w : WeightsState) (vis hid : ℕ → ℕ → ℝ) : ℕ → ℝ :=
  fun k => -batch_dot w.rows w.cols vis w.matrix hid k

/-- The explicit per-sample double loop the spec compares `Weights.energy`
against: `E_k = -Σ_i Σ_j W_ij vis_ki hid_kj`. -/
def Weights.energyLoop (w : WeightsState) (vis hid : ℕ → ℕ → ℝ) : ℕ → ℝ :=
  fun k =>
    -∑ i ∈ Finset.range w.rows, ∑ j ∈ Finset.range w.cols,
      w.matrix i j * vis k i * hid k j

/-! ### Gaussian layer (src lines 220–425) -/

/-- `GaussianLayer.log_partition_function` (src lines 269–295):
`scale = exp(log_var)`; `logZ = loc*phi`; `logZ += scale*phi**2`;
`logZ += log(scale)`.  Note the code adds `scale * phi**2` with no factor
one half, although its own docstring says `log(Z_i) = log(s_i) + phi_i u_i
+ phi_i^2 s_i^2 / 2`. -/
def GaussianLayer.log_partition_function (s : GaussianState)
    (phi : ℕ → ℕ → ℝ) : ℕ → ℕ → ℝ :=
  fun k i =>
    s.loc i * phi k i + Real.exp (s.log_var i) * (phi k i) ^ 2
      + Real.log (Real.exp (s.log_var i))

/-- The claim's formula for the Gaussian log-partition function (for the
refinement comparison): `loc·φ + var·φ²/2 + log(var)` with
`var = exp(log_var)`. -/
def gaussianLogZClaim (loc log_var : ℕ → ℝ) (phi : ℕ → ℕ → ℝ) : ℕ → ℕ → ℝ :=
  fun k i =>
    loc i * phi k i + Real.exp (log_var i) * (phi k i) ^ 2 / 2
      + Real.log (Real.exp (log_var i))

/-- `GaussianLayer.online_param_update` (src lines 297–326).  The second
moment `x2 = exp(log_var) + loc**2` is taken before `loc` is updated; both
moments are updated by the weighted recursion with weights
`sample_size/new_sample_size` and `n/new_sample_size`, then
`log_var = log(x2 - loc**2)` with the new `loc`.  With integer `0/0`
(empty batch on a fresh layer) Python raises ZeroDivisionError before any
mutation. -/
def GaussianLayer.online_param_update (s : GaussianState)
    (data : List (ℕ → ℝ)) : GaussianState × Option PyErr :=
  let n := data.length
  let nss := n + s.sample_size
  if nss = 0 then (s, some PyErr.zeroDivisionError)
  else
    let x2 : ℕ → ℝ := fun i => Real.exp (s.log_var i) + (s.loc i) ^ 2
    let loc' : ℕ → ℝ := fun i =>
      s.loc i * ((s.sample_size : ℝ) / (nss : ℝ))
        + (n : ℝ) * colMean data i / (nss : ℝ)
    let x2' : ℕ → ℝ := fun i =>
      x2 i * ((s.sample_size : ℝ) / (nss : ℝ))
        + (n : ℝ) * colSqMean data i / (nss : ℝ)
    ({ s with
        loc := loc',
        log_var := fun i => Real.log (x2' i - (loc' i) ^ 2),
        sample_size := nss }, none)

/-- `GaussianLayer.shrink_parameters` (src lines 328–346):
`var = mix(1 - shrinkage, var, ones)`, stored back through `log`. -/
def GaussianLayer.shrink_parameters (s : GaussianState) (shrinkage : ℝ) :
    GaussianState :=
  { s with
      log_var := fun i =>
        Real.log (mix (1 - shrinkage) (Real.exp (s.log_var i)) 1) }

/-- `GaussianLayer.update` (src lines 348–380): `mean = dot(scaled_units,
weights)`; if beta is given, `mean *= beta` (broadcast over units); then
`mean += loc`; `variance = exp(log_var)` broadcast over samples. -/
def GaussianLayer.update (s : GaussianState) (su w : ℕ → ℕ → ℝ) (m : ℕ)
    (beta : Option (ℕ → ℝ)) : GaussianState :=
  let phi := dot m su w
  let tempered : ℕ → ℕ → ℝ :=
    match beta with
    | none => phi
    | some b => fun k i => b k * phi k i
  { s with
      ext_mean := some (fun k i => tempered k i + s.loc i),
      ext_variance := some (fun _k i => Real.exp (s.log_var i)) }

/-- `GaussianLayer.mode` (src lines 410–411): returns
`self.ext_params['mean']`. -/
def GaussianLayer.mode (s : GaussianState) : Option (ℕ → ℕ → ℝ) :=
  s.ext_mean

/-- `GaussianLayer.mean` (src lines 413–414): returns
`self.ext_params['mean']`. -/
def GaussianLayer.mean (s : GaussianState) : Option (ℕ → ℕ → ℝ) :=
  s.ext_mean

/-! ### Ising layer (src lines 428–518) -/

/-- `IsingLayer.online_param_update` (src lines 462–472): the running first
moment is `x = tanh(loc)`, updated by the weighted recursion, and the
location parameter is recovered as `loc = atanh(x)`. -/
def IsingLayer.online_param_update (s : ULState) (data : List (ℕ → ℝ)) :
    ULState × Option PyErr :=
  let n := data.length
  let nss := n + s.sample_size
  if nss = 0 then (s, some PyErr.zeroDivisionError)
  else
    ({ s with
        loc := fun i =>
          artanh (Real.tanh (s.loc i) * ((s.sample_size : ℝ) / (nss : ℝ))
            + (n : ℝ) * colMean data i / (nss : ℝ)),
        sample_size := nss }, none)

/-- `IsingLayer.update` (src lines 477–487): `field = dot(scaled_units,
weights)`; if beta is given, `field *= beta`; then `field += loc`. -/
def IsingLayer.update (s : ULState) (su w : ℕ → ℕ → ℝ) (m : ℕ)
    (beta : Option (ℕ → ℝ)) : ULState :=
  let phi := dot m su w
  let tempered : ℕ → ℕ → ℝ :=
    match beta with
    | none => phi
    | some b => fun k i => b k * phi k i
  { s with ext := some (fun k i => tempered k i + s.loc i) }

/-! ### Bernoulli layer (src lines 521–611) -/

/-- `BernoulliLayer.online_param_update` (src lines 555–565): the running
first moment is `x = expit(loc)`, updated by the weighted recursion, and the
location parameter is recovered as `loc = logit(x)`. -/
def BernoulliLayer.online_param_update (s : ULState) (data : List (ℕ → ℝ)) :
    ULState × Option PyErr :=
  let n := data.length
  let nss := n + s.sample_size
  if nss = 0 then (s, some PyErr.zeroDivisionError)
  else
    ({ s with
        loc := fun i =>
          logit (expit (s.loc i) * ((s.sample_size : ℝ) / (nss : ℝ))
            + (n : ℝ) * colMean data i / (nss : ℝ)),
        sample_size := nss }, none)

/-- `BernoulliLayer.update` (src lines 570–580): identical in form to the
Ising update. -/
def BernoulliLayer.update (s : ULState) (su w : ℕ → ℕ → ℝ) (m : ℕ)
    (beta : Option (ℕ → ℝ)) : ULState :=
  let phi := dot m su w
  let tempered : ℕ → ℕ → ℝ :=
    match beta with
    | none => phi
    | some b => fun k i => b k * phi k i
  { s with ext := some (fun k i => tempered k i + s.loc i) }

/-! ### Exponential layer (src lines 614–703) -/

/-- `ExponentialLayer.mean` (src lines 691–692): a zero-argument method
(besides `self`) returning `be.reciprocal(self.ext_params['rate'])`. -/
def ExponentialLayer.mean (s : ULState) : Option (ℕ → ℕ → ℝ) :=
  s.ext.map fun r => fun k i => (r k i)⁻¹

/-- `ExponentialLayer.online_param_update` (src lines 648–658): its first
statement touching the layer is `x = self.mean(self.int_params['loc'])`,
which passes one positional argument to the zero-argument method
`ExponentialLayer.mean` (src line 691).  Python raises
`TypeError: mean() takes 1 positional argument but 2 were given` before any
field of the layer is modified, so the state is returned unchanged. -/
def ExponentialLayer.online_param_update (s : ULState)
    (_data : List (ℕ → ℝ)) : ULState × Option PyErr :=
  (s, some PyErr.typeError)

/-- `ExponentialLayer.update` (src lines 663–673): `rate =
-dot(scaled_units, weights)`; if beta is given, `rate *= beta`; then
`rate += loc`. -/
def ExponentialLayer.update (s : ULState) (su w : ℕ → ℕ → ℝ) (m : ℕ)
    (beta : Option (ℕ → ℝ)) : ULState :=
  let phi := dot m su w
  let neg : ℕ → ℕ → ℝ := fun k i => -phi k i
  let tempered : ℕ → ℕ → ℝ :=
    match beta with
    | none => neg
    | some b => fun k i => b k * neg k i
  { s with ext := some (fun k i => tempered k i + s.loc i) }

/-- `ExponentialLayer.mode` (src lines 688–689):
`raise NotImplementedError("Exponential distribution has no mode.")`. -/
def ExponentialLayer.mode (_s : ULState) : Except PyErr (ℕ → ℕ → ℝ) :=
  Except.error PyErr.notImplementedError

/-! ### Layer registry (src lines 708–718) -/

/-- The four unit-layer constructors the registry can return. -/
inductive LayerKind where
  | gaussian
  | ising
  | bernoulli
  | exponential
deriving DecidableEq, Repr

/-- Python's substring test `needle in hay` on lists of characters. -/
def hasSubstr (needle : List Char) : List Char → Bool
  | [] => needle.isEmpty
  | c :: rest => needle.isPrefixOf (c :: rest) || hasSubstr needle rest

/-- Python's `key.lower()` as a list of characters. -/
def lowerChars (s : String) : List Char := s.toList.map Char.toLower

/-- `get` (src lines 708–718): substring match on the lowercased key, tried
in the fixed order gauss → ising → bern → expo; `ValueError('Unknown layer
type')` when none matches. -/
def get (key : String) : Except PyErr LayerKind :=
  if hasSubstr "gauss".toList (lowerChars key) then Except.ok LayerKind.gaussian
  else if hasSubstr "ising".toList (lowerChars key) then Except.ok LayerKind.ising
  else if hasSubstr "bern".toList (lowerChars key) then Except.ok LayerKind.bernoulli
  else if hasSubstr "expo".toList (lowerChars key) then Except.ok LayerKind.exponential
  else Except.error PyErr.valueError

/-! ### Operation sequences (for the sample_size invariant)

The mutating operations a trainer can apply to a unit layer, with the
argument shapes fixed by layers.py.  Readout methods (`mode`, `mean`,
`sample_state`, `energy`, `log_partition_function`, `derivatives`) do not
assign to any attribute and are omitted. -/

inductive UnitOp where
  | online (data : List (ℕ → ℝ))
  | param_step (deltas : List (String × (ℕ → ℝ)))
  | add_penalty (p : List (String × Penalty))
  | add_constraint (c : List (String × ConstraintFn))
  | enforce
  | shrink (shrinkage : ℝ)
  | field_update (su w : ℕ → ℕ → ℝ) (m : ℕ) (beta : Option (ℕ → ℝ))

/-- Dispatch of one operation on a Gaussian layer. -/
def gaussianApply (s : GaussianState) : UnitOp → GaussianState × Option PyErr
  | UnitOp.online data => GaussianLayer.online_param_update s data
  | UnitOp.param_step d => GaussianState.parameter_step s d
  | UnitOp.add_penalty p => GaussianState.add_penalty s p
  | UnitOp.add_constraint c => GaussianState.add_constraint s c
  | UnitOp.enforce => GaussianState.enforce_constraints s
  | UnitOp.shrink g => (GaussianLayer.shrink_parameters s g, none)
  | UnitOp.field_update su w m b => (GaussianLayer.update s su w m b, none)

/-- Dispatch of one operation on an Ising layer. -/
def isingApply (s : ULState) : UnitOp → ULState × Option PyErr
  | UnitOp.online data => IsingLayer.online_param_update s data
  | UnitOp.param_step d => ULState.parameter_step s d
  | UnitOp.add_penalty p => ULState.add_penalty s p
  | UnitOp.add_constraint c => ULState.add_constraint s c
  | UnitOp.enforce => ULState.enforce_constraints s
  | UnitOp.shrink _ => (s, none)
  | UnitOp.field_update su w m b => (IsingLayer.update s su w m b, none)

/-- Dispatch of one operation on a Bernoulli layer. -/
def bernoulliApply (s : ULState) : UnitOp → ULState × Option PyErr
  | UnitOp.online data => BernoulliLayer.online_param_update s data
  | UnitOp.param_step d => ULState.parameter_step s d
  | UnitOp.add_penalty p => ULState.add_penalty s p
  | UnitOp.add_constraint c => ULState.add_constraint s c
  | UnitOp.enforce => ULState.enforce_constraints s
  | UnitOp.shrink _ => (s, none)
  | UnitOp.field_update su w m b => (BernoulliLayer.update s su w m b, none)

/-- Dispatch of one operation on an Exponential layer. -/
def exponentialApply (s : ULState) : UnitOp → ULState × Option PyErr
  | UnitOp.online data => ExponentialLayer.online_param_update s data
  | UnitOp.param_step d => ULState.parameter_step s d
  | UnitOp.add_penalty p => ULState.add_penalty s p
  | UnitOp.add_constraint c => ULState.add_constraint s c
  | UnitOp.enforce => ULState.enforce_constraints s
  | UnitOp.shrink _ => (s, none)
  | UnitOp.field_update su w m b => (ExponentialLayer.update s su w m b, none)

/-- Run a sequence of operations.  A raised exception propagates: the
remaining operations are not executed, and the state mutated so far is the
final one. -/
def runOps {σ : Type} (apply : σ → UnitOp → σ × Option PyErr) :
    σ → List UnitOp → σ
  | s, [] => s
  | s, op :: rest =>
      match apply s op with
      | (s', none) => runOps apply s' rest
      | (s', some _) => s'

/-! ### Concrete demonstration inputs used by the witnesses -/

/-- A data row holding value one half at every unit. -/
def rowHalf : ℕ → ℝ := fun _ => (1 : ℝ) / 2

/-- A data row holding value one quarter at every unit. -/
def rowQuarter : ℕ → ℝ := fun _ => (1 : ℝ) / 4

/-- A freshly constructed one-unit `loc`-only layer (zero-initialized). -/
def demoUL : ULState :=
  { len := 1, sample_size := 0, loc := fun _ => 0, ext := none,
    penalties := [], constraints := [] }

/-- A freshly constructed one-unit Gaussian layer (zero-initialized). -/
def demoGauss : GaussianState :=
  { len := 1, sample_size := 0, loc := fun _ => 0, log_var := fun _ => 0,
    ext_mean := none, ext_variance := none, penalties := [], constraints := [] }

/-- A constant external field of ones. -/
def onesField : ℕ → ℕ → ℝ := fun _ _ => 1

/-! ## Helper lemmas -/

theorem tanh_exp_form (x : ℝ) :
    Real.tanh x = (Real.exp (2 * x) - 1) / (Real.exp (2 * x) + 1) := by
  rw [Real.tanh_eq_sinh_div_cosh, Real.sinh_eq, Real.cosh_eq]
  have h : Real.exp (2 * x) = Real.exp x * Real.exp x := by
    rw [two_mul, Real.exp_add]
  have hx : Real.exp (-x) = (Real.exp x)⁻¹ := Real.exp_neg x
  have hpos : (0 : ℝ) < Real.exp x := Real.exp_pos x
  have hsum : (0 : ℝ) < Real.exp x * Real.exp x + 1 := by positivity
  rw [h, hx]
  field_simp

theorem tanh_lt_one_real (x : ℝ) : Real.tanh x < 1 := by
  rw [tanh_exp_form]
  have h : (0 : ℝ) < Real.exp (2 * x) + 1 := by positivity
  rw [div_lt_one h]
  linarith

theorem neg_one_lt_tanh_real (x : ℝ) : -1 < Real.tanh x := by
  rw [tanh_exp_form]
  have h : (0 : ℝ) < Real.exp (2 * x) + 1 := by positivity
  rw [lt_div_iff h]
  have := Real.exp_pos (2 * x)
  linarith

theorem tanh_artanh (m : ℝ) (h1 : -1 < m) (h2 : m < 1) :
    Real.tanh (artanh m) = m := by
  have hm1 : (0 : ℝ) < 1 + m := by linarith
  have hm2 : (0 : ℝ) < 1 - m := by linarith
  have hu : (0 : ℝ) < (1 + m) / (1 - m) := div_pos hm1 hm2
  rw [tanh_exp_form, artanh]
  rw [show 2 * (Real.log ((1 + m) / (1 - m)) / 2)
      = Real.log ((1 + m) / (1 - m)) by ring]
  rw [Real.exp_log hu]
  have hd : (1 + m) / (1 - m) + 1 = 2 / (1 - m) := by field_simp; ring
  have hn : (1 + m) / (1 - m) - 1 = 2 * m / (1 - m) := by field_simp; ring
  rw [hd, hn]
  rw [div_eq_iff (by positivity : (2 : ℝ) / (1 - m) ≠ 0)]
  field_simp
  ring

theorem expit_pos (x : ℝ) : 0 < expit x := by
  unfold expit
  positivity

theorem expit_lt_one (x : ℝ) : expit x < 1 := by
  unfold expit
  have h : (0 : ℝ) < Real.exp (-x) := Real.exp_pos (-x)
  rw [div_lt_one (by linarith)]
  linarith

theorem expit_logit (p : ℝ) (h1 : 0 < p) (h2 : p < 1) : expit (logit p) = p := by
  unfold expit logit
  have hp : (0 : ℝ) < p / (1 - p) := div_pos h1 (by linarith)
  rw [Real.exp_neg, Real.exp_log hp, inv_div]
  have h : 1 + (1 - p) / p = 1 / p := by field_simp
  rw [h, one_div_one_div]

theorem convex_lt_one (t μ s0 n : ℝ) (hs0 : 0 ≤ s0) (hn : 1 ≤ n)
    (ht : t ≤ 1) (hμ : μ < 1) :
    t * (s0 / (n + s0)) + n * μ / (n + s0) < 1 := by
  have hd : (0 : ℝ) < n + s0 := by linarith
  have hre : t * (s0 / (n + s0)) + n * μ / (n + s0)
      = (t * s0 + n * μ) / (n + s0) := by ring
  rw [hre, div_lt_one hd]
  have ha : t * s0 ≤ s0 := by nlinarith
  have hb : n * μ < n := by nlinarith
  linarith

theorem neg_one_lt_convex (t μ s0 n : ℝ) (hs0 : 0 ≤ s0) (hn : 1 ≤ n)
    (ht : -1 ≤ t) (hμ : -1 < μ) :
    -1 < t * (s0 / (n + s0)) + n * μ / (n + s0) := by
  have hd : (0 : ℝ) < n + s0 := by linarith
  have hre : t * (s0 / (n + s0)) + n * μ / (n + s0)
      = (t * s0 + n * μ) / (n + s0) := by ring
  rw [hre, lt_div_iff hd]
  have ha : -s0 ≤ t * s0 := by nlinarith
  have hb : -n < n * μ := by nlinarith
  linarith

theorem convex_pos (t μ s0 n : ℝ) (hs0 : 0 ≤ s0) (hn : 1 ≤ n)
    (ht : 0 ≤ t) (hμ : 0 < μ) :
    0 < t * (s0 / (n + s0)) + n * μ / (n + s0) := by
  have hd : (0 : ℝ) < n + s0 := by linarith
  have ha : 0 ≤ t * (s0 / (n + s0)) := by positivity
  have hb : 0 < n * μ / (n + s0) := by positivity
  linarith

theorem moment_step_merge (t μ1 μ2 μT s0 n1 n2 : ℝ)
    (hn1 : 0 < n1) (hn2 : 0 < n2) (hs0 : 0 ≤ s0)
    (hsum : (n1 + n2) * μT = n1 * μ1 + n2 * μ2) :
    (t * (s0 / (n1 + s0)) + n1 * μ1 / (n1 + s0)) * ((n1 + s0) / (n2 + (n1 + s0)))
        + n2 * μ2 / (n2 + (n1 + s0))
      = t * (s0 / (n1 + n2 + s0)) + (n1 + n2) * μT / (n1 + n2 + s0) := by
  have hd1 : (0 : ℝ) < n1 + s0 := by linarith
  have hd2 : (0 : ℝ) < n2 + (n1 + s0) := by linarith
  have hd3 : (0 : ℝ) < n1 + n2 + s0 := by linarith
  have hT : (n1 + n2) * μT / (n1 + n2 + s0)
      = (n1 * μ1 + n2 * μ2) / (n1 + n2 + s0) := by rw [hsum]
  rw [hT]
  field_simp
  ring

theorem colMean_append_mul (d1 d2 : List (ℕ → ℝ)) (i : ℕ)
    (h1 : 0 < d1.length) (h2 : 0 < d2.length) :
    ((d1.length : ℝ) + d2.length) * colMean (d1 ++ d2) i
      = d1.length * colMean d1 i + d2.length * colMean d2 i := by
  unfold colMean
  rw [List.map_append, List.sum_append, List.length_append]
  have hn1 : (0 : ℝ) < d1.length := by exact_mod_cast h1
  have hn2 : (0 : ℝ) < d2.length := by exact_mod_cast h2
  push_cast
  field_simp

theorem colMean_append_comm (d1 d2 : List (ℕ → ℝ)) (i : ℕ) :
    colMean (d2 ++ d1) i = colMean (d1 ++ d2) i := by
  unfold colMean
  rw [List.map_append, List.sum_append, List.map_append, List.sum_append,
    List.length_append, List.length_append,
    add_comm ((d2.map fun r => r i).sum), add_comm d2.length]

theorem ising_merge_aux (s : ULState) (d1 d2 : List (ℕ → ℝ)) (i : ℕ)
    (h1 : 0 < d1.length) (h2 : 0 < d2.length)
    (hl1 : -1 < colMean d1 i) (hu1 : colMean d1 i < 1) :
    (IsingLayer.online_param_update
        (IsingLayer.online_param_update s d1).1 d2).1.loc i
      = (IsingLayer.online_param_update s (d1 ++ d2)).1.loc i := by
  have g1 : ¬(d1.length + s.sample_size = 0) := by omega
  have g3 : ¬(d1.length + d2.length + s.sample_size = 0) := by omega
  have g2 : ¬(d2.length + (d1.length + s.sample_size) = 0) := by omega
  simp only [IsingLayer.online_param_update, List.length_append, if_neg g1,
    if_neg g3, if_neg g2]
  push_cast
  have hs0 : (0 : ℝ) ≤ (s.sample_size : ℝ) := by positivity
  have hn1 : (1 : ℝ) ≤ (d1.length : ℝ) := by exact_mod_cast h1
  have hn1' : (0 : ℝ) < (d1.length : ℝ) := by linarith
  have hn2' : (0 : ℝ) < (d2.length : ℝ) := by exact_mod_cast h2
  have hX1 : -1 < Real.tanh (s.loc i)
      * ((s.sample_size : ℝ) / ((d1.length : ℝ) + (s.sample_size : ℝ)))
      + (d1.length : ℝ) * colMean d1 i
        / ((d1.length : ℝ) + (s.sample_size : ℝ)) :=
    neg_one_lt_convex _ _ _ _ hs0 hn1 (neg_one_lt_tanh_real _).le hl1
  have hX2 : Real.tanh (s.loc i)
      * ((s.sample_size : ℝ) / ((d1.length : ℝ) + (s.sample_size : ℝ)))
      + (d1.length : ℝ) * colMean d1 i
        / ((d1.length : ℝ) + (s.sample_size : ℝ)) < 1 :=
    convex_lt_one _ _ _ _ hs0 hn1 (tanh_lt_one_real _).le hu1
  rw [tanh_artanh _ hX1 hX2]
  congr 1
  exact moment_step_merge (Real.tanh (s.loc i)) (colMean d1 i) (colMean d2 i)
    (colMean (d1 ++ d2) i) (s.sample_size : ℝ) (d1.length : ℝ) (d2.length : ℝ)
    hn1' hn2' hs0 (colMean_append_mul d1 d2 i h1 h2)

theorem bernoulli_merge_aux (s : ULState) (d1 d2 : List (ℕ → ℝ)) (i : ℕ)
    (h1 : 0 < d1.length) (h2 : 0 < d2.length)
    (hl1 : 0 < colMean d1 i) (hu1 : colMean d1 i < 1) :
    (BernoulliLayer.online_param_update
        (BernoulliLayer.online_param_update s d1).1 d2).1.loc i
      = (BernoulliLayer.online_param_update s (d1 ++ d2)).1.loc i := by
  have g1 : ¬(d1.length + s.sample_size = 0) := by omega
  have g3 : ¬(d1.length + d2.length + s.sample_size = 0) := by omega
  have g2 : ¬(d2.length + (d1.length + s.sample_size) = 0) := by omega
  simp only [BernoulliLayer.online_param_update, List.length_append, if_neg g1,
    if_neg g3, if_neg g2]
  push_cast
  have hs0 : (0 : ℝ) ≤ (s.sample_size : ℝ) := by positivity
  have hn1 : (1 : ℝ) ≤ (d1.length : ℝ) := by exact_mod_cast h1
  have hn1' : (0 : ℝ) < (d1.length : ℝ) := by linarith
  have hn2' : (0 : ℝ) < (d2.length : ℝ) := by exact_mod_cast h2
  have hX1 : 0 < expit (s.loc i)
      * ((s.sample_size : ℝ) / ((d1.length : ℝ) + (s.sample_size : ℝ)))
      + (d1.length : ℝ) * colMean d1 i
        / ((d1.length : ℝ) + (s.sample_size : ℝ)) :=
    convex_pos _ _ _ _ hs0 hn1 (expit_pos _).le hl1
  have hX2 : expit (s.loc i)
      * ((s.sample_size : ℝ) / ((d1.length : ℝ) + (s.sample_size : ℝ)))
      + (d1.length : ℝ) * colMean d1 i
        / ((d1.length : ℝ) + (s.sample_size : ℝ)) < 1 :=
    convex_lt_one _ _ _ _ hs0 hn1 (expit_lt_one _).le hu1
  rw [expit_logit _ hX1 hX2]
  congr 1
  exact moment_step_merge (expit (s.loc i)) (colMean d1 i) (colMean d2 i)
    (colMean (d1 ++ d2) i) (s.sample_size : ℝ) (d1.length : ℝ) (d2.length : ℝ)
    hn1' hn2' hs0 (colMean_append_mul d1 d2 i h1 h2)

theorem ising_merge_ss (s : ULState) (d1 d2 : List (ℕ → ℝ))
    (h1 : 0 < d1.length) (h2 : 0 < d2.length) :
    (IsingLayer.online_param_update
        (IsingLayer.online_param_update s d1).1 d2).1.sample_size
      = (IsingLayer.online_param_update s (d1 ++ d2)).1.sample_size := by
  have g1 : ¬(d1.length + s.sample_size = 0) := by omega
  have g3 : ¬(d1.length + d2.length + s.sample_size = 0) := by omega
  have g2 : ¬(d2.length + (d1.length + s.sample_size) = 0) := by omega
  simp only [IsingLayer.online_param_update, List.length_append, if_neg g1,
    if_neg g3, if_neg g2]
  omega

theorem bernoulli_merge_ss (s : ULState) (d1 d2 : List (ℕ → ℝ))
    (h1 : 0 < d1.length) (h2 : 0 < d2.length) :
    (BernoulliLayer.online_param_update
        (BernoulliLayer.online_param_update s d1).1 d2).1.sample_size
      = (BernoulliLayer.online_param_update s (d1 ++ d2)).1.sample_size := by
  have g1 : ¬(d1.length + s.sample_size = 0) := by omega
  have g3 : ¬(d1.length + d2.length + s.sample_size = 0) := by omega
  have g2 : ¬(d2.length + (d1.length + s.sample_size) = 0) := by omega
  simp only [BernoulliLayer.online_param_update, List.length_append, if_neg g1,
    if_neg g3, if_neg g2]
  omega

theorem ising_online_append_swap (s : ULState) (d1 d2 : List (ℕ → ℝ)) :
    IsingLayer.online_param_update s (d2 ++ d1)
      = IsingLayer.online_param_update s (d1 ++ d2) := by
  have hlen : (d2 ++ d1).length = (d1 ++ d2).length := by
    rw [List.length_append, List.length_append, Nat.add_comm]
  have hμ : colMean (d2 ++ d1) = colMean (d1 ++ d2) :=
    funext fun j => colMean_append_comm d1 d2 j
  simp only [IsingLayer.online_param_update, hlen, hμ]

theorem bernoulli_online_append_swap (s : ULState) (d1 d2 : List (ℕ → ℝ)) :
    BernoulliLayer.online_param_update s (d2 ++ d1)
      = BernoulliLayer.online_param_update s (d1 ++ d2) := by
  have hlen : (d2 ++ d1).length = (d1 ++ d2).length := by
    rw [List.length_append, List.length_append, Nat.add_comm]
  have hμ : colMean (d2 ++ d1) = colMean (d1 ++ d2) :=
    funext fun j => colMean_append_comm d1 d2 j
  simp only [BernoulliLayer.online_param_update, hlen, hμ]

theorem ulSubtractDeltas_sample_size (s : ULState)
    (d : List (String × (ℕ → ℝ))) :
    (ULState.subtractDeltas s d).1.sample_size = s.sample_size := by
  induction d generalizing s with
  | nil => rfl
  | cons hd tl ih =>
      obtain ⟨name, delta⟩ := hd
      simp only [ULState.subtractDeltas]
      by_cases h : name = "loc"
      · rw [if_pos h]
        simpa using ih { s with loc := fun i => s.loc i - delta i }
      · rw [if_neg h]

theorem gaussSubtractDeltas_sample_size (s : GaussianState)
    (d : List (String × (ℕ → ℝ))) :
    (GaussianState.subtractDeltas s d).1.sample_size = s.sample_size := by
  induction d generalizing s with
  | nil => rfl
  | cons hd tl ih =>
      obtain ⟨name, delta⟩ := hd
      simp only [GaussianState.subtractDeltas]
      by_cases h : name = "loc"
      · rw [if_pos h]
        simpa using ih { s with loc := fun i => s.loc i - delta i }
      · rw [if_neg h]
        by_cases h' : name = "log_var"
        · rw [if_pos h']
          simpa using ih { s with log_var := fun i => s.log_var i - delta i }
        · rw [if_neg h']

theorem ulEnforce_sample_size (s : ULState) :
    (ULState.enforce_constraints s).1.sample_size = s.sample_size := by
  unfold ULState.enforce_constraints
  split <;> rfl

theorem gaussEnforce_sample_size (s : GaussianState) :
    (GaussianState.enforce_constraints s).1.sample_size = s.sample_size := by
  unfold GaussianState.enforce_constraints
  split <;> rfl

theorem ulParameter_step_sample_size (s : ULState)
    (d : List (String × (ℕ → ℝ))) :
    (ULState.parameter_step s d).1.sample_size = s.sample_size := by
  unfold ULState.parameter_step
  have h := ulSubtractDeltas_sample_size s d
  rcases hsub : ULState.subtractDeltas s d with ⟨s', e⟩
  rw [hsub] at h
  cases e
  · simpa [ulEnforce_sample_size s'] using h
  · simpa using h

theorem gaussParameter_step_sample_size (s : GaussianState)
    (d : List (String × (ℕ → ℝ))) :
    (GaussianState.parameter_step s d).1.sample_size = s.sample_size := by
  unfold GaussianState.parameter_step
  have h := gaussSubtractDeltas_sample_size s d
  rcases hsub : GaussianState.subtractDeltas s d with ⟨s', e⟩
  rw [hsub] at h
  cases e
  · simpa [gaussEnforce_sample_size s'] using h
  · simpa using h

theorem isingApply_sample_size_mono (s : ULState) (op : UnitOp) :
    s.sample_size ≤ (isingApply s op).1.sample_size := by
  cases op with
  | online data =>
      simp only [isingApply, IsingLayer.online_param_update]
      split
      · exact le_rfl
      · exact Nat.le_add_left _ _
  | param_step d => exact le_of_eq (ulParameter_step_sample_size s d).symm
  | add_penalty p => exact le_rfl
  | add_constraint c => exact le_rfl
  | enforce => exact le_of_eq (ulEnforce_sample_size s).symm
  | shrink g => exact le_rfl
  | field_update su w m b => exact le_rfl

theorem bernoulliApply_sample_size_mono (s : ULState) (op : UnitOp) :
    s.sample_size ≤ (bernoulliApply s op).1.sample_size := by
  cases op with
  | online data =>
      simp only [bernoulliApply, BernoulliLayer.online_param_update]
      split
      · exact le_rfl
      · exact Nat.le_add_left _ _
  | param_step d => exact le_of_eq (ulParameter_step_sample_size s d).symm
  | add_penalty p => exact le_rfl
  | add_constraint c => exact le_rfl
  | enforce => exact le_of_eq (ulEnforce_sample_size s).symm
  | shrink g => exact le_rfl
  | field_update su w m b => exact le_rfl

theorem exponentialApply_sample_size_mono (s : ULState) (op : UnitOp) :
    s.sample_size ≤ (exponentialApply s op).1.sample_size := by
  cases op with
  | online data => exact le_rfl
  | param_step d => exact le_of_eq (ulParameter_step_sample_size s d).symm
  | add_penalty p => exact le_rfl
  | add_constraint c => exact le_rfl
  | enforce => exact le_of_eq (ulEnforce_sample_size s).symm
  | shrink g => exact le_rfl
  | field_update su w m b => exact le_rfl

theorem gaussianApply_sample_size_mono (s : GaussianState) (op : UnitOp) :
    s.sample_size ≤ (gaussianApply s op).1.sample_size := by
  cases op with
  | online data =>
      simp only [gaussianApply, GaussianLayer.online_param_update]
      split
      · exact le_rfl
      · exact Nat.le_add_left _ _
  | param_step d =>
      exact le_of_eq (gaussParameter_step_sample_size s d).symm
  | add_penalty p => exact le_rfl
  | add_constraint c => exact le_rfl
  | enforce => exact le_of_eq (gaussEnforce_sample_size s).symm
  | shrink g => exact le_rfl
  | field_update su w m b => exact le_rfl

theorem runOps_sample_size_mono {σ : Type} (f : σ → ℕ)
    (apply : σ → UnitOp → σ × Option PyErr)
    (h : ∀ s op, f s ≤ f (apply s op).1) :
    ∀ (s : σ) (ops : List UnitOp), f s ≤ f (runOps apply s ops) := by
  intro s ops
  induction ops generalizing s with
  | nil => exact le_rfl
  | cons op rest ih =>
      have h1 := h s op
      simp only [runOps]
      rcases happ : apply s op with ⟨s', e⟩
      rw [happ] at h1
      cases e
      · exact le_trans h1 (ih s')
      · exact h1

/-! ## Claim theorems -/

/-- Claim C1 (code bug): the Gaussian `log_partition_function` is claimed to
return `loc·φ + var·φ²/2 + log(var)` per sample and unit, matching the
method's own docstring; the code computes `loc·φ + var·φ² + log(var)`, with
no one-half factor on the quadratic term.  At loc = 0, log_var = 0, φ = 1
the code yields 1 while the claimed formula yields 1/2. -/
theorem gaussian_log_partition_quadratic_term_unhalved :
    GaussianLayer.log_partition_function demoGauss onesField 0 0 = 1
    ∧ gaussianLogZClaim demoGauss.loc demoGauss.log_var onesField 0 0 = 1 / 2 := by
  constructor
  · simp [GaussianLayer.log_partition_function, demoGauss, onesField]
  · simp [gaussianLogZClaim, demoGauss, onesField]

/-- Claim C2 (code bug): `ExponentialLayer.online_param_update` is claimed to
perform the weighted recursion on the running mean `1/loc` without raising;
the code's statement `x = self.mean(self.int_params['loc'])` passes one
positional argument to the zero-argument method `mean`, so every call raises
TypeError and leaves the layer unchanged. -/
theorem exponential_online_param_update_raises_type_error :
    ∀ (s : ULState) (data : List (ℕ → ℝ)),
      (ExponentialLayer.online_param_update s data).2 = some PyErr.typeError
      ∧ (ExponentialLayer.online_param_update s data).1 = s :=
  fun _ _ => ⟨rfl, rfl⟩

/-- Claim C3 (code bug): `add_constraint` is claimed to register a
per-parameter constraint (last write wins) that `parameter_step` later
applies; the code body `self.constraint.update(constraint)` reads the
non-existent attribute `self.constraint` (the initializer defines
`self.constraints`), so every call raises AttributeError and registers
nothing. -/
theorem add_constraint_raises_attribute_error :
    (∀ (s : ULState) (c : List (String × ConstraintFn)),
      ULState.add_constraint s c = (s, some PyErr.attributeError))
    ∧ (∀ (s : GaussianState) (c : List (String × ConstraintFn)),
      GaussianState.add_constraint s c = (s, some PyErr.attributeError)) :=
  ⟨fun _ _ => rfl, fun _ _ => rfl⟩

/-- Claim C4: for the Ising and Bernoulli layers, starting from the same
initial state, feeding a dataset to `online_param_update` as one batch
yields the same final intrinsic `loc` (per unit) and `sample_size` as
feeding the rows as two consecutive non-empty batches, in either split
order, whenever the per-batch column means lie strictly inside the image
of the running moment (the open interval (-1,1) for Ising, (0,1) for
Bernoulli) so that the moment round trip is defined. -/
theorem ising_bernoulli_online_batch_partition_invariant :
    (∀ (s : ULState) (d1 d2 : List (ℕ → ℝ)) (i : ℕ),
      0 < d1.length → 0 < d2.length →
      -1 < colMean d1 i → colMean d1 i < 1 →
      -1 < colMean d2 i → colMean d2 i < 1 →
      ((IsingLayer.online_param_update
            (IsingLayer.online_param_update s d1).1 d2).1.loc i
          = (IsingLayer.online_param_update s (d1 ++ d2)).1.loc i
        ∧ (IsingLayer.online_param_update
            (IsingLayer.online_param_update s d2).1 d1).1.loc i
          = (IsingLayer.online_param_update s (d1 ++ d2)).1.loc i))
    ∧ (∀ (s : ULState) (d1 d2 : List (ℕ → ℝ)),
      0 < d1.length → 0 < d2.length →
      ((IsingLayer.online_param_update
            (IsingLayer.online_param_update s d1).1 d2).1.sample_size
          = (IsingLayer.online_param_update s (d1 ++ d2)).1.sample_size
        ∧ (IsingLayer.online_param_update
            (IsingLayer.online_param_update s d2).1 d1).1.sample_size
          = (IsingLayer.online_param_update s (d1 ++ d2)).1.sample_size))
    ∧ (∀ (s : ULState) (d1 d2 : List (ℕ → ℝ)) (i : ℕ),
      0 < d1.length → 0 < d2.length →
      0 < colMean d1 i → colMean d1 i < 1 →
      0 < colMean d2 i → colMean d2 i < 1 →
      ((BernoulliLayer.online_param_update
            (BernoulliLayer.online_param_update s d1).1 d2).1.loc i
          = (BernoulliLayer.online_param_update s (d1 ++ d2)).1.loc i
        ∧ (BernoulliLayer.online_param_update
            (BernoulliLayer.online_param_update s d2).1 d1).1.loc i
          = (BernoulliLayer.online_param_update s (d1 ++ d2)).1.loc i))
    ∧ (∀ (s : ULState) (d1 d2 : List (ℕ → ℝ)),
      0 < d1.length → 0 < d2.length →
      ((BernoulliLayer.online_param_update
            (BernoulliLayer.online_param_update s d1).1 d2).1.sample_size
          = (BernoulliLayer.online_param_update s (d1 ++ d2)).1.sample_size
        ∧ (BernoulliLayer.online_param_update
            (BernoulliLayer.online_param_update s d2).1 d1).1.sample_size
          = (BernoulliLayer.online_param_update s (d1 ++ d2)).1.sample_size)) := by
  refine ⟨?_, ?_, ?_, ?_⟩
  · intro s d1 d2 i h1 h2 hl1 hu1 hl2 hu2
    refine ⟨ising_merge_aux s d1 d2 i h1 h2 hl1 hu1, ?_⟩
    rw [← ising_online_append_swap s d1 d2]
    exact ising_merge_aux s d2 d1 i h2 h1 hl2 hu2
  · intro s d1 d2 h1 h2
    refine ⟨ising_merge_ss s d1 d2 h1 h2, ?_⟩
    rw [← ising_online_append_swap s d1 d2]
    exact ising_merge_ss s d2 d1 h2 h1
  · intro s d1 d2 i h1 h2 hl1 hu1 hl2 hu2
    refine ⟨bernoulli_merge_aux s d1 d2 i h1 h2 hl1 hu1, ?_⟩
    rw [← bernoulli_online_append_swap s d1 d2]
    exact bernoulli_merge_aux s d2 d1 i h2 h1 hl2 hu2
  · intro s d1 d2 h1 h2
    refine ⟨bernoulli_merge_ss s d1 d2 h1 h2, ?_⟩
    rw [← bernoulli_online_append_swap s d1 d2]
    exact bernoulli_merge_ss s d2 d1 h2 h1

/-- Witness for C4: a concrete merge of a one-row batch of one-half values
and a one-row batch of one-quarter values on a fresh Ising layer. -/
theorem ising_bernoulli_online_batch_partition_invariant_witness :
    ((0 : ℕ) < [rowHalf].length ∧ (0 : ℕ) < [rowQuarter].length
      ∧ -1 < colMean [rowHalf] 0 ∧ colMean [rowHalf] 0 < 1
      ∧ -1 < colMean [rowQuarter] 0 ∧ colMean [rowQuarter] 0 < 1)
    ∧ (IsingLayer.online_param_update
          (IsingLayer.online_param_update demoUL [rowHalf]).1 [rowQuarter]).1.loc 0
        = (IsingLayer.online_param_update demoUL ([rowHalf] ++ [rowQuarter])).1.loc 0 := by
  have e1 : (0 : ℕ) < [rowHalf].length := by norm_num
  have e2 : (0 : ℕ) < [rowQuarter].length := by norm_num
  have e3 : -1 < colMean [rowHalf] 0 := by norm_num [colMean, rowHalf]
  have e4 : colMean [rowHalf] 0 < 1 := by norm_num [colMean, rowHalf]
  have e5 : -1 < colMean [rowQuarter] 0 := by norm_num [colMean, rowQuarter]
  have e6 : colMean [rowQuarter] 0 < 1 := by norm_num [colMean, rowQuarter]
  exact ⟨⟨e1, e2, e3, e4, e5, e6⟩,
    (ising_bernoulli_online_batch_partition_invariant.1 demoUL [rowHalf]
      [rowQuarter] 0 e1 e2 e3 e4 e5 e6).1⟩

/-- Claim C5: for every unit layer (Gaussian, Ising, Bernoulli,
Exponential), `sample_size` is monotonically non-decreasing across any
sequence of operations, is changed by no operation other than
`online_param_update`, and each successful `online_param_update` adds
exactly the number of rows of the batch just passed (for the Exponential
layer every `online_param_update` raises TypeError and leaves the state
unchanged, so no rows are ever absorbed there). -/
theorem unit_layer_sample_size_invariant :
    ((∀ (s : GaussianState) (op : UnitOp),
        s.sample_size ≤ (gaussianApply s op).1.sample_size)
    ∧ (∀ (s : GaussianState) (d : List (String × (ℕ → ℝ))),
        (gaussianApply s (UnitOp.param_step d)).1.sample_size = s.sample_size)
    ∧ (∀ (s : GaussianState) (p : List (String × Penalty)),
        (gaussianApply s (UnitOp.add_penalty p)).1.sample_size = s.sample_size)
    ∧ (∀ (s : GaussianState) (c : List (String × ConstraintFn)),
        (gaussianApply s (UnitOp.add_constraint c)).1.sample_size = s.sample_size)
    ∧ (∀ s : GaussianState,
        (gaussianApply s UnitOp.enforce).1.sample_size = s.sample_size)
    ∧ (∀ (s : GaussianState) (g : ℝ),
        (gaussianApply s (UnitOp.shrink g)).1.sample_size = s.sample_size)
    ∧ (∀ (s : GaussianState) (su w : ℕ → ℕ → ℝ) (m : ℕ) (b : Option (ℕ → ℝ)),
        (gaussianApply s (UnitOp.field_update su w m b)).1.sample_size
          = s.sample_size)
    ∧ (∀ (s : GaussianState) (data : List (ℕ → ℝ)), 0 < data.length →
        (gaussianApply s (UnitOp.online data)).1.sample_size
            = s.sample_size + data.length
          ∧ (gaussianApply s (UnitOp.online data)).2 = none)
    ∧ (∀ (s : GaussianState) (ops : List UnitOp),
        s.sample_size ≤ (runOps gaussianApply s ops).sample_size))
    ∧ ((∀ (s : ULState) (op : UnitOp),
        s.sample_size ≤ (isingApply s op).1.sample_size)
    ∧ (∀ (s : ULState) (d : List (String × (ℕ → ℝ))),
        (isingApply s (UnitOp.param_step d)).1.sample_size = s.sample_size)
    ∧ (∀ (s : ULState) (p : List (String × Penalty)),
        (isingApply s (UnitOp.add_penalty p)).1.sample_size = s.sample_size)
    ∧ (∀ (s : ULState) (c : List (String × ConstraintFn)),
        (isingApply s (UnitOp.add_constraint c)).1.sample_size = s.sample_size)
    ∧ (∀ s : ULState,
        (isingApply s UnitOp.enforce).1.sample_size = s.sample_size)
    ∧ (∀ (s : ULState) (g : ℝ),
        (isingApply s (UnitOp.shrink g)).1.sample_size = s.sample_size)
    ∧ (∀ (s : ULState) (su w : ℕ → ℕ → ℝ) (m : ℕ) (b : Option (ℕ → ℝ)),
        (isingApply s (UnitOp.field_update su w m b)).1.sample_size
          = s.sample_size)
    ∧ (∀ (s : ULState) (data : List (ℕ → ℝ)), 0 < data.length →
        (isingApply s (UnitOp.online data)).1.sample_size
            = s.sample_size + data.length
          ∧ (isingApply s (UnitOp.online data)).2 = none)
    ∧ (∀ (s : ULState) (ops : List UnitOp),
        s.sample_size ≤ (runOps isingApply s ops).sample_size))
    ∧ ((∀ (s : ULState) (op : UnitOp),
        s.sample_size ≤ (bernoulliApply s op).1.sample_size)
    ∧ (∀ (s : ULState) (d : List (String × (ℕ → ℝ))),
        (bernoulliApply s (UnitOp.param_step d)).1.sample_size = s.sample_size)
    ∧ (∀ (s : ULState) (p : List (String × Penalty)),
        (bernoulliApply s (UnitOp.add_penalty p)).1.sample_size = s.sample_size)
    ∧ (∀ (s : ULState) (c : List (String × ConstraintFn)),
        (bernoulliApply s (UnitOp.add_constraint c)).1.sample_size
          = s.sample_size)
    ∧ (∀ s : ULState,
        (bernoulliApply s UnitOp.enforce).1.sample_size = s.sample_size)
    ∧ (∀ (s : ULState) (g : ℝ),
        (bernoulliApply s (UnitOp.shrink g)).1.sample_size = s.sample_size)
    ∧ (∀ (s : ULState) (su w : ℕ → ℕ → ℝ) (m : ℕ) (b : Option (ℕ → ℝ)),
        (bernoulliApply s (UnitOp.field_update su w m b)).1.sample_size
          = s.sample_size)
    ∧ (∀ (s : ULState) (data : List (ℕ → ℝ)), 0 < data.length →
        (bernoulliApply s (UnitOp.online data)).1.sample_size
            = s.sample_size + data.length
          ∧ (bernoulliApply s (UnitOp.online data)).2 = none)
    ∧ (∀ (s : ULState) (ops : List UnitOp),
        s.sample_size ≤ (runOps bernoulliApply s ops).sample_size))
    ∧ ((∀ (s : ULState) (op : UnitOp),
        s.sample_size ≤ (exponentialApply s op).1.sample_size)
    ∧ (∀ (s : ULState) (d : List (String × (ℕ → ℝ))),
        (exponentialApply s (UnitOp.param_step d)).1.sample_size
          = s.sample_size)
    ∧ (∀ (s : ULState) (p : List (String × Penalty)),
        (exponentialApply s (UnitOp.add_penalty p)).1.sample_size
          = s.sample_size)
    ∧ (∀ (s : ULState) (c : List (String × ConstraintFn)),
        (exponentialApply s (UnitOp.add_constraint c)).1.sample_size
          = s.sample_size)
    ∧ (∀ s : ULState,
        (exponentialApply s UnitOp.enforce).1.sample_size = s.sample_size)
    ∧ (∀ (s : ULState) (g : ℝ),
        (exponentialApply s (UnitOp.shrink g)).1.sample_size = s.sample_size)
    ∧ (∀ (s : ULState) (su w : ℕ → ℕ → ℝ) (m : ℕ) (b : Option (ℕ → ℝ)),
        (exponentialApply s (UnitOp.field_update su w m b)).1.sample_size
          = s.sample_size)
    ∧ (∀ (s : ULState) (data : List (ℕ → ℝ)),
        exponentialApply s (UnitOp.online data) = (s, some PyErr.typeError))
    ∧ (∀ (s : ULState) (ops : List UnitOp),
        s.sample_size ≤ (runOps exponentialApply s ops).sample_size)) := by
  refine ⟨⟨gaussianApply_sample_size_mono,
      fun s d => gaussParameter_step_sample_size s d,
      fun s p => rfl, fun s c => rfl,
      fun s => gaussEnforce_sample_size s,
      fun s g => rfl, fun s su w m b => rfl, ?_,
      runOps_sample_size_mono GaussianState.sample_size gaussianApply
        gaussianApply_sample_size_mono⟩,
    ⟨isingApply_sample_size_mono,
      fun s d => ulParameter_step_sample_size s d,
      fun s p => rfl, fun s c => rfl,
      fun s => ulEnforce_sample_size s,
      fun s g => rfl, fun s su w m b => rfl, ?_,
      runOps_sample_size_mono ULState.sample_size isingApply
        isingApply_sample_size_mono⟩,
    ⟨bernoulliApply_sample_size_mono,
      fun s d => ulParameter_step_sample_size s d,
      fun s p => rfl, fun s c => rfl,
      fun s => ulEnforce_sample_size s,
      fun s g => rfl, fun s su w m b => rfl, ?_,
      runOps_sample_size_mono ULState.sample_size bernoulliApply
        bernoulliApply_sample_size_mono⟩,
    ⟨exponentialApply_sample_size_mono,
      fun s d => ulParameter_step_sample_size s d,
      fun s p => rfl, fun s c => rfl,
      fun s => ulEnforce_sample_size s,
      fun s g => rfl, fun s su w m b => rfl, fun s data => rfl,
      runOps_sample_size_mono ULState.sample_size exponentialApply
        exponentialApply_sample_size_mono⟩⟩
  · intro s data h
    have g : ¬(data.length + s.sample_size = 0) := by omega
    simp only [gaussianApply, GaussianLayer.online_param_update, if_neg g]
    exact ⟨by omega, trivial⟩
  · intro s data h
    have g : ¬(data.length + s.sample_size = 0) := by omega
    simp only [isingApply, IsingLayer.online_param_update, if_neg g]
    exact ⟨by omega, trivial⟩
  · intro s data h
    have g : ¬(data.length + s.sample_size = 0) := by omega
    simp only [bernoulliApply, BernoulliLayer.online_param_update, if_neg g]
    exact ⟨by omega, trivial⟩

/-- Witness for C5: absorbing a concrete one-row batch into a fresh Ising
layer succeeds and advances `sample_size` from zero to one. -/
theorem unit_layer_sample_size_invariant_witness :
    (0 : ℕ) < [rowHalf].length
    ∧ (isingApply demoUL (UnitOp.online [rowHalf])).1.sample_size
        = demoUL.sample_size + [rowHalf].length
    ∧ (isingApply demoUL (UnitOp.online [rowHalf])).2 = none := by
  have h : (0 : ℕ) < [rowHalf].length := by norm_num
  have hc := unit_layer_sample_size_invariant.2.1.2.2.2.2.2.2.2.1
    demoUL [rowHalf] h
  exact ⟨h, hc.1, hc.2⟩

/-- Claim C6: for every unit layer, `update` computes the field
`φ = scaled_units · weights`, scales it elementwise by `beta` before adding
the intrinsic bias when `beta` is given (and leaves it unscaled when it is
None), and overwrites the extrinsic parameters from these inputs alone:
Ising/Bernoulli set `field = beta*φ + loc`, Gaussian sets
`mean = beta*φ + loc` and `variance = exp(log_var)`, Exponential sets
`rate = loc - beta*φ`; the result does not depend on the extrinsic
parameters held before the call. -/
theorem unit_layer_update_extrinsic_forms :
    (∀ (s : ULState) (su w : ℕ → ℕ → ℝ) (m : ℕ),
      ((IsingLayer.update s su w m none).ext
          = some (fun k i => dot m su w k i + s.loc i))
      ∧ (∀ b : ℕ → ℝ, (IsingLayer.update s su w m (some b)).ext
          = some (fun k i => b k * dot m su w k i + s.loc i))
      ∧ (∀ (e : Option (ℕ → ℕ → ℝ)) (beta : Option (ℕ → ℝ)),
          IsingLayer.update { s with ext := e } su w m beta
            = IsingLayer.update s su w m beta))
    ∧ (∀ (s : ULState) (su w : ℕ → ℕ → ℝ) (m : ℕ),
      ((BernoulliLayer.update s su w m none).ext
          = some (fun k i => dot m su w k i + s.loc i))
      ∧ (∀ b : ℕ → ℝ, (BernoulliLayer.update s su w m (some b)).ext
          = some (fun k i => b k * dot m su w k i + s.loc i))
      ∧ (∀ (e : Option (ℕ → ℕ → ℝ)) (beta : Option (ℕ → ℝ)),
          BernoulliLayer.update { s with ext := e } su w m beta
            = BernoulliLayer.update s su w m beta))
    ∧ (∀ (s : ULState) (su w : ℕ → ℕ → ℝ) (m : ℕ),
      ((ExponentialLayer.update s su w m none).ext
          = some (fun k i => s.loc i - dot m su w k i))
      ∧ (∀ b : ℕ → ℝ, (ExponentialLayer.update s su w m (some b)).ext
          = some (fun k i => s.loc i - b k * dot m su w k i))
      ∧ (∀ (e : Option (ℕ → ℕ → ℝ)) (beta : Option (ℕ → ℝ)),
          ExponentialLayer.update { s with ext := e } su w m beta
            = ExponentialLayer.update s su w m beta))
    ∧ (∀ (s : GaussianState) (su w : ℕ → ℕ → ℝ) (m : ℕ),
      ((GaussianLayer.update s su w m none).ext_mean
          = some (fun k i => dot m su w k i + s.loc i))
      ∧ (∀ b : ℕ → ℝ, (GaussianLayer.update s su w m (some b)).ext_mean
          = some (fun k i => b k * dot m su w k i + s.loc i))
      ∧ (∀ beta : Option (ℕ → ℝ),
          (GaussianLayer.update s su w m beta).ext_variance
            = some (fun _k i => Real.exp (s.log_var i)))
      ∧ (∀ (e1 e2 : Option (ℕ → ℕ → ℝ)) (beta : Option (ℕ → ℝ)),
          GaussianLayer.update { s with ext_mean := e1, ext_variance := e2 } su w m beta
            = GaussianLayer.update s su w m beta)) := by
  refine ⟨fun s su w m => ⟨rfl, fun b => rfl, fun e beta => by cases beta <;> rfl⟩,
    fun s su w m => ⟨rfl, fun b => rfl, fun e beta => by cases beta <;> rfl⟩,
    fun s su w m => ⟨?_, ?_, fun e beta => by cases beta <;> rfl⟩,
    fun s su w m => ⟨rfl, fun b => rfl, fun beta => by cases beta <;> rfl,
      fun e1 e2 beta => by cases beta <;> rfl⟩⟩
  · simp only [ExponentialLayer.update]
    congr 1
    funext k i
    ring
  · intro b
    simp only [ExponentialLayer.update]
    congr 1
    funext k i
    ring

/-- Claim C7: `Weights.energy(vis, hid)` returns, per sample row k, the
negative bilinear form `-Σ_ij W_ij vis_ki hid_kj`, equal to what an explicit
per-sample double loop would compute. -/
theorem weights_energy_matches_per_sample_loop :
    ∀ (w : WeightsState) (vis hid : ℕ → ℕ → ℝ) (k : ℕ),
      Weights.energy w vis hid k = Weights.energyLoop w vis hid k := by
  intro w vis hid k
  unfold Weights.energy Weights.energyLoop batch_dot
  congr 1
  calc
    ∑ j ∈ Finset.range w.cols,
        (∑ i ∈ Finset.range w.rows, vis k i * w.matrix i j) * hid k j
      = ∑ j ∈ Finset.range w.cols, ∑ i ∈ Finset.range w.rows,
          w.matrix i j * vis k i * hid k j :=
        Finset.sum_congr rfl fun j _ => by
          rw [Finset.sum_mul]
          exact Finset.sum_congr rfl fun i _ => by ring
    _ = ∑ i ∈ Finset.range w.rows, ∑ j ∈ Finset.range w.cols,
          w.matrix i j * vis k i * hid k j := Finset.sum_comm

/-- Claim C8: the registry matches case-insensitively on substrings in the
fixed order gauss → ising → bern → expo; "GAUSSIAN", "gauss" and
"Gauss_layer" all resolve to the Gaussian constructor, and `get` raises the
unknown-layer-type ValueError exactly when the lowercased key contains none
of the four tokens. -/
theorem layer_registry_substring_matching :
    get "GAUSSIAN" = Except.ok LayerKind.gaussian
    ∧ get "gauss" = Except.ok LayerKind.gaussian
    ∧ get "Gauss_layer" = Except.ok LayerKind.gaussian
    ∧ ∀ key : String,
        (get key = Except.error PyErr.valueError
          ↔ (hasSubstr "gauss".toList (lowerChars key) = false
            ∧ hasSubstr "ising".toList (lowerChars key) = false
            ∧ hasSubstr "bern".toList (lowerChars key) = false
            ∧ hasSubstr "expo".toList (lowerChars key) = false)) := by
  refine ⟨by rfl, by rfl, by rfl, ?_⟩
  intro key
  unfold get
  split_ifs with h1 h2 h3 h4 <;> simp_all

/-- Witness for C8: concrete registry lookups obtained from the theorem. -/
theorem layer_registry_substring_matching_witness :
    get "quux" = Except.error PyErr.valueError
    ∧ get "GAUSSIAN" = Except.ok LayerKind.gaussian :=
  ⟨(layer_registry_substring_matching.2.2.2 "quux").mpr (by decide),
    layer_registry_substring_matching.1⟩

/-- Claim C9: `mode()` on an Exponential layer always signals the
NotImplementedError and never returns a value, whatever the layer state. -/
theorem exponential_mode_unsupported :
    ∀ s : ULState,
      ExponentialLayer.mode s = Except.error PyErr.notImplementedError
      ∧ (ExponentialLayer.mode s).isOk = false :=
  fun _ => ⟨rfl, rfl⟩

/-- Claim C10: on a Gaussian layer, `mode()` and `mean()` return the same
value — both read the extrinsic mean parameter — for every layer state,
in particular after any `update`. -/
theorem gaussian_mode_eq_mean :
    ∀ s : GaussianState, GaussianLayer.mode s = GaussianLayer.mean s :=
  fun _ => rfl

end

end Paysage
